import Mathlib

/-
Verification of the demo-parser service (main.go): a shallow embedding of
the stateful event-aggregation engine in `parseDemo`, the player-accumulator
helpers `getOrCreatePlayer` / `getPlayerName`, and the HTTP handler
`parseHandler`, together with theorems settling the spec's claims.

Modelling conventions:
- Go `int` values that take part in arithmetic (ticks, durations, scores,
  penetration counts) are `Int`; `Int.div` is Go's truncated division.
- The counters kills/deaths/assists only ever start at 0 and increment, so
  they are `Nat`.
- `float64` header fields (`FrameRate()`, `PlaybackTime.Seconds()`) are
  modelled as `Rat`; Go's `int(x)` float-to-int conversion truncates toward
  zero, captured by `goTruncToInt`.
- The replay event source is external: it delivers an ordered list of typed
  events, each carrying the ambient in-game tick at which the registered
  handler observes it (`p.GameState().IngameTick()`), plus the side scores
  the game state exposes at a round end. A decode fault from `ParseToEnd`
  is an `Option String` on the stream; when present, `parseDemo` discards
  all accumulated state and returns the error, exactly as the Go code
  returns `nil, err`.
- The Go `map[uint64]*Player` is an association list in insertion order
  with unique keys (proved as an invariant); Go map iteration order is
  unspecified, and no theorem below depends on the player list's order.
-/

namespace DemoParser

/-- Team enum of the replay source (`common.Team`). -/
inductive Team
  | unassigned
  | spectators
  | terrorists
  | counterTerrorists
deriving DecidableEq, Repr

/-- A player identity as delivered by the replay source (`common.Player`):
stable 64-bit id, display name, and current side. -/
structure SourcePlayer where
  steamID64 : Nat
  name : String
  team : Team
deriving DecidableEq, Repr

/-- Values stored in the untyped `map[string]interface\x7b\x7d` payload bags. -/
inductive EVal
  | str (s : String)
  | bool (b : Bool)
  | int (n : Int)
deriving DecidableEq, Repr

/-- The `Player` output record. The derived-metric placeholders
(`ADR`/`HSP`/`KAST`/`Rating`, Go `float64`) are carried but never written,
and the `Stats` bag stays empty. -/
structure Player where
  steamID : String
  name : String
  team : String
  kills : Nat
  deaths : Nat
  assists : Nat
  adr : Rat
  hsp : Rat
  kast : Rat
  rating : Rat
  stats : List (String × EVal)
deriving DecidableEq, Repr

/-- The `Round` output record. -/
structure Round where
  roundNumber : Nat
  winnerSide : String
  winReason : String
  ctScore : Int
  tScore : Int
  durationSeconds : Int
  roundData : List (String × EVal)
deriving DecidableEq, Repr

/-- The `GameEvent` output record. -/
structure GameEvent where
  eventType : String
  tick : Int
  roundNumber : Nat
  eventData : List (String × EVal)
deriving DecidableEq, Repr

/-- The `Metadata` output record. -/
structure Metadata where
  mapName : String
  duration : Int
  tickRate : Int
deriving DecidableEq, Repr

/-- The `ParsedData` output record (the Result bundle). -/
structure ParsedData where
  demoID : String
  players : List Player
  rounds : List Round
  events : List GameEvent
  metadata : Metadata
deriving DecidableEq, Repr

/-- One typed event delivered by the replay source to the registered
handlers. Each constructor carries the ambient in-game tick at delivery
time; `roundStart` also carries the payload fields of `events.RoundStart`
(which the handler ignores), and `roundEnd` carries the winner and reason
strings plus the side scores the game state exposes at that instant. -/
inductive DemoEvent
  | roundStart (tick : Int) (timeLimit fragLimit : Int) (objective : String)
  | roundEnd (tick : Int) (winner reason : String) (ctScore tScore : Int)
  | kill (tick : Int) (killer victim assister : Option SourcePlayer)
      (weapon : String) (isHeadshot : Bool) (penetrated : Int)
deriving DecidableEq, Repr

/-- True exactly on kill events. -/
def DemoEvent.isKill : DemoEvent → Bool
  | .kill .. => true
  | _ => false

/-- True exactly on round-start events. -/
def DemoEvent.isRoundStart : DemoEvent → Bool
  | .roundStart .. => true
  | _ => false

/-- True exactly on round-end events. -/
def DemoEvent.isRoundEnd : DemoEvent → Bool
  | .roundEnd .. => true
  | _ => false

/-- The mutable working set of one `parseDemo` run: the closure variables
`playerStats`, `currentRound`, `startTick` and the growing output slices. -/
structure ParseState where
  players : List (Nat × Player)
  rounds : List Round
  events : List GameEvent
  currentRound : Nat
  startTick : Int
deriving DecidableEq, Repr

/-- The state at the top of `parseDemo`: empty slices, `currentRound := 0`,
`startTick := 0`. -/
def initState : ParseState :=
  { players := [], rounds := [], events := [], currentRound := 0, startTick := 0 }

/-- The side label computed in `getOrCreatePlayer`: default `spectator`,
`T` for terrorists, `CT` for counter-terrorists. -/
def teamLabel : Team → String
  | .terrorists => "T"
  | .counterTerrorists => "CT"
  | _ => "spectator"

/-- The fresh accumulator `getOrCreatePlayer` builds on first sighting. -/
def newPlayer (p : SourcePlayer) : Player :=
  { steamID := toString p.steamID64
    name := p.name
    team := teamLabel p.team
    kills := 0, deaths := 0, assists := 0
    adr := 0, hsp := 0, kast := 0, rating := 0
    stats := [] }

/-- First-match lookup in the accumulator map. -/
def findPlayer (stats : List (Nat × Player)) (key : Nat) : Option Player :=
  match stats with
  | [] => none
  | kv :: rest => if kv.1 = key then some kv.2 else findPlayer rest key

/-- Whether the accumulator map already holds an entry for `key`
(the `exists` test in `getOrCreatePlayer`). -/
def containsKey (stats : List (Nat × Player)) (key : Nat) : Bool :=
  stats.any (fun kv => kv.1 = key)

/-- Replace the first entry for `key` by applying `f` to it. -/
def updateEntry (stats : List (Nat × Player)) (key : Nat) (f : Player → Player) :
    List (Nat × Player) :=
  match stats with
  | [] => []
  | kv :: rest =>
      if kv.1 = key then (kv.1, f kv.2) :: rest else kv :: updateEntry rest key f

/-- `getOrCreatePlayer` followed by a counter mutation through the returned
pointer: if an accumulator for `p` exists, mutate it in place; otherwise
create one (fixing name and team from this first sighting) and mutate it. -/
def updatePlayer (stats : List (Nat × Player)) (p : SourcePlayer)
    (f : Player → Player) : List (Nat × Player) :=
  if containsKey stats p.steamID64 then updateEntry stats p.steamID64 f
  else stats ++ [(p.steamID64, f (newPlayer p))]

/-- The `if x != nil` guard around each accumulator mutation in the kill
handler. -/
def updateOpt (stats : List (Nat × Player)) (p : Option SourcePlayer)
    (f : Player → Player) : List (Nat × Player) :=
  match p with
  | none => stats
  | some q => updatePlayer stats q f

/-- `getPlayerName`: the sentinel `unknown` for a nil player. -/
def getPlayerName : Option SourcePlayer → String
  | none => "unknown"
  | some p => p.name

/-- The `eventData` payload map built in the kill handler. -/
def killEventData (killer victim : Option SourcePlayer) (weapon : String)
    (isHeadshot : Bool) (penetrated : Int) : List (String × EVal) :=
  [("killer", .str (getPlayerName killer)),
   ("victim", .str (getPlayerName victim)),
   ("weapon", .str weapon),
   ("isHeadshot", .bool isHeadshot),
   ("penetrated", .int penetrated)]

/-- First-match lookup in a payload map. -/
def findVal (l : List (String × EVal)) (key : String) : Option EVal :=
  match l with
  | [] => none
  | kv :: rest => if kv.1 = key then some kv.2 else findVal rest key

/-- One step of the aggregation engine: the three registered event handlers
of `parseDemo`, dispatched on the event kind.
- round start: `currentRound++`, `startTick = IngameTick()`;
- round end: append a `Round` with the running counter, the signalled
  winner/reason, the current side scores, and duration
  `(IngameTick() - startTick) / 128` in Go truncated integer division;
- kill: resolve-or-create and bump killer kills, victim deaths, assister
  assists (each guarded by nil), then append a `kill` `GameEvent`. -/
def step (st : ParseState) (e : DemoEvent) : ParseState :=
  match e with
  | .roundStart tick _ _ _ =>
      { st with currentRound := st.currentRound + 1, startTick := tick }
  | .roundEnd tick winner reason ctScore tScore =>
      { st with rounds := st.rounds ++
          [{ roundNumber := st.currentRound
             winnerSide := winner
             winReason := reason
             ctScore := ctScore
             tScore := tScore
             durationSeconds := Int.tdiv (tick - st.startTick) 128
             roundData := [] }] }
  | .kill tick killer victim assister weapon isHeadshot penetrated =>
      let stats1 := updateOpt st.players killer (fun pl => { pl with kills := pl.kills + 1 })
      let stats2 := updateOpt stats1 victim (fun pl => { pl with deaths := pl.deaths + 1 })
      let stats3 := updateOpt stats2 assister (fun pl => { pl with assists := pl.assists + 1 })
      { st with
          players := stats3
          events := st.events ++
            [{ eventType := "kill"
               tick := tick
               roundNumber := st.currentRound
               eventData := killEventData killer victim weapon isHeadshot penetrated }] }

/-- The single in-order pass `ParseToEnd` makes over the event stream. -/
def runEvents (st : ParseState) (es : List DemoEvent) : ParseState :=
  es.foldl step st

/-- The finalized source header: map name, `PlaybackTime.Seconds()` and
`FrameRate()` (both Go `float64`, modelled as `Rat`). -/
structure Header where
  mapName : String
  playbackSeconds : Rat
  frameRate : Rat
deriving DecidableEq, Repr

/-- Go's `int(x)` conversion from a floating value: the fractional part is
discarded, i.e. truncation toward zero. On `Rat` this is truncated
division of the numerator by the (positive) denominator. -/
def goTruncToInt (x : Rat) : Int :=
  Int.tdiv x.num x.den

/-- What the replay event source produces from a byte buffer: the ordered
event stream the handlers observe, the finalized header, and, when the
buffer is not a valid/complete replay, the decode fault `ParseToEnd`
returns (possibly after some events were already delivered mid-stream). -/
structure DemoStream where
  events : List DemoEvent
  header : Header
  fault : Option String

/-- `parseDemo`: run the single-pass fold; if `ParseToEnd` reported a
fault, return the error and discard everything accumulated; otherwise
drain the accumulator map into the player list and assemble the metadata
from the finalized header (`int(PlaybackTime.Seconds())`,
`int(FrameRate())`). -/
def parseDemo (demoID : String) (stream : DemoStream) : Except String ParsedData :=
  let st := runEvents initState stream.events
  match stream.fault with
  | some msg => .error msg
  | none =>
      .ok { demoID := demoID
            players := st.players.map (fun kv => kv.2)
            rounds := st.rounds
            events := st.events
            metadata :=
              { mapName := stream.header.mapName
                duration := goTruncToInt stream.header.playbackSeconds
                tickRate := goTruncToInt stream.header.frameRate } }

/-- A response body: either the plain-text message written by `http.Error`,
or the JSON object with the single field `status` written on success. -/
inductive RespBody
  | text (msg : String)
  | jsonStatus (status : String)
deriving DecidableEq, Repr

/-- An HTTP response: status code and body. -/
structure HttpResponse where
  statusCode : Nat
  body : RespBody
deriving DecidableEq, Repr

/-- The decoded `/parse` request body. -/
structure ParseRequest where
  demoID : String
  filePath : String
deriving DecidableEq, Repr

/-- One `/parse` request together with the behavior of the external
collaborators: the HTTP method, the outcome of JSON-decoding the body, the
storage download keyed by file path (yielding what the replay source makes
of the downloaded bytes), and the webhook delivery outcome. -/
structure HandlerInput where
  method : String
  decodedBody : Except String ParseRequest
  download : String → Except String DemoStream
  webhook : ParsedData → Except String Unit

/-- What a `parseHandler` call did: the response written, and the list of
webhook delivery attempts made (empty or one). -/
structure HandlerResult where
  response : HttpResponse
  delivered : List ParsedData

/-- `parseHandler`: non-POST gets 405; a JSON decode error gets 400 with
the error text; a download, parse, or webhook failure gets 500 with the
error text; otherwise 200 with JSON status `success`. The webhook is
invoked exactly when download and parse both succeeded. -/
def parseHandler (input : HandlerInput) : HandlerResult :=
  if input.method ≠ "POST" then
    { response := { statusCode := 405, body := .text "Method not allowed" }, delivered := [] }
  else
    match input.decodedBody with
    | .error msg =>
        { response := { statusCode := 400, body := .text msg }, delivered := [] }
    | .ok req =>
        match input.download req.filePath with
        | .error msg =>
            { response := { statusCode := 500, body := .text msg }, delivered := [] }
        | .ok stream =>
            match parseDemo req.demoID stream with
            | .error msg =>
                { response := { statusCode := 500, body := .text msg }, delivered := [] }
            | .ok parsed =>
                match input.webhook parsed with
                | .error msg =>
                    { response := { statusCode := 500, body := .text msg },
                      delivered := [parsed] }
                | .ok _ =>
                    { response := { statusCode := 200, body := .jsonStatus "success" },
                      delivered := [parsed] }

/-- Number of round-start signals in a stream. -/
def countRoundStarts (es : List DemoEvent) : Nat :=
  es.countP (fun e => e.isRoundStart)

/-- The kill count recorded for an identity (0 when no accumulator exists). -/
def killsOf (stats : List (Nat × Player)) (key : Nat) : Nat :=
  ((findPlayer stats key).map Player.kills).getD 0

/-- The death count recorded for an identity (0 when no accumulator exists). -/
def deathsOf (stats : List (Nat × Player)) (key : Nat) : Nat :=
  ((findPlayer stats key).map Player.deaths).getD 0

/-- The assist count recorded for an identity (0 when no accumulator exists). -/
def assistsOf (stats : List (Nat × Player)) (key : Nat) : Nat :=
  ((findPlayer stats key).map Player.assists).getD 0

/-- The identities currently holding an accumulator, in insertion order. -/
def keysOf (stats : List (Nat × Player)) : List Nat :=
  stats.map (fun kv => kv.1)

theorem runEvents_append (st : ParseState) (a b : List DemoEvent) :
    runEvents st (a ++ b) = runEvents (runEvents st a) b := by
  simp [runEvents, List.foldl_append]

theorem not_mem_keysOf (stats : List (Nat × Player)) (key : Nat)
    (h : containsKey stats key = false) : key ∉ keysOf stats := by
  intro hmem
  rcases List.mem_map.mp hmem with ⟨kv, hkv, hk⟩
  have hfa := List.any_eq_false.mp h kv hkv
  simp [hk] at hfa

theorem containsKey_false_iff (stats : List (Nat × Player)) (key : Nat) :
    containsKey stats key = false ↔ findPlayer stats key = none := by
  induction stats with
  | nil => simp [containsKey, findPlayer]
  | cons kv rest ih =>
      by_cases h : kv.1 = key <;> simp [containsKey, findPlayer, h, ← ih]

theorem containsKey_true_exists (stats : List (Nat × Player)) (key : Nat)
    (h : containsKey stats key = true) : ∃ pl, findPlayer stats key = some pl := by
  rcases hf : findPlayer stats key with _ | pl
  · rw [← containsKey_false_iff] at hf
    rw [h] at hf
    cases hf
  · exact ⟨pl, rfl⟩

theorem findPlayer_updateEntry_self (stats : List (Nat × Player)) (key : Nat)
    (f : Player → Player) :
    findPlayer (updateEntry stats key f) key = (findPlayer stats key).map f := by
  induction stats with
  | nil => rfl
  | cons kv rest ih =>
      by_cases h : kv.1 = key <;> simp [updateEntry, findPlayer, h, ih]

theorem findPlayer_updateEntry_ne (stats : List (Nat × Player)) (key key' : Nat)
    (f : Player → Player) (h : key' ≠ key) :
    findPlayer (updateEntry stats key f) key' = findPlayer stats key' := by
  induction stats with
  | nil => rfl
  | cons kv rest ih =>
      by_cases hk : kv.1 = key
      · subst hk
        simp [updateEntry, findPlayer, Ne.symm h]
      · simp [updateEntry, findPlayer, hk, ih]

theorem findPlayer_append (a b : List (Nat × Player)) (key : Nat) :
    findPlayer (a ++ b) key =
      match findPlayer a key with
      | some pl => some pl
      | none => findPlayer b key := by
  induction a with
  | nil => simp [findPlayer]
  | cons kv rest ih =>
      by_cases h : kv.1 = key <;> simp [findPlayer, h, ih]

theorem findPlayer_updatePlayer_self (stats : List (Nat × Player)) (p : SourcePlayer)
    (f : Player → Player) :
    findPlayer (updatePlayer stats p f) p.steamID64 =
      some (f ((findPlayer stats p.steamID64).getD (newPlayer p))) := by
  unfold updatePlayer
  by_cases h : containsKey stats p.steamID64
  · obtain ⟨pl, hpl⟩ := containsKey_true_exists stats p.steamID64 h
    simp [h, findPlayer_updateEntry_self, hpl]
  · rw [Bool.not_eq_true] at h
    have hn := (containsKey_false_iff stats p.steamID64).mp h
    simp [h, findPlayer_append, hn, findPlayer]

theorem findPlayer_updatePlayer_ne (stats : List (Nat × Player)) (p : SourcePlayer)
    (f : Player → Player) (key : Nat) (h : key ≠ p.steamID64) :
    findPlayer (updatePlayer stats p f) key = findPlayer stats key := by
  unfold updatePlayer
  by_cases hc : containsKey stats p.steamID64
  · simp [hc, findPlayer_updateEntry_ne _ _ _ _ h]
  · rw [Bool.not_eq_true] at hc
    simp only [hc, Bool.false_eq_true, if_false]
    rw [findPlayer_append]
    rcases hf : findPlayer stats key with _ | pl
    · simp [findPlayer, Ne.symm h]
    · simp

theorem findPlayer_updateOpt_ne (stats : List (Nat × Player)) (op : Option SourcePlayer)
    (f : Player → Player) (key : Nat) (h : ∀ q, op = some q → key ≠ q.steamID64) :
    findPlayer (updateOpt stats op f) key = findPlayer stats key := by
  cases op with
  | none => rfl
  | some q => exact findPlayer_updatePlayer_ne stats q f key (h q rfl)

theorem killOnly_run (es : List DemoEvent) (h : ∀ e ∈ es, e.isKill = true)
    (st : ParseState) :
    (runEvents st es).rounds = st.rounds ∧
    (runEvents st es).currentRound = st.currentRound ∧
    (runEvents st es).startTick = st.startTick := by
  induction es generalizing st with
  | nil => exact ⟨rfl, rfl, rfl⟩
  | cons e es ih =>
      have he : e.isKill = true := h e (List.mem_cons_self e es)
      have hes : ∀ x ∈ es, x.isKill = true := fun x hx => h x (List.mem_cons_of_mem e hx)
      cases e with
      | roundStart tick tl fl obj => simp [DemoEvent.isKill] at he
      | roundEnd tick w r cs ts => simp [DemoEvent.isKill] at he
      | kill tick k v a w hs pen =>
          exact ih hes (step st (DemoEvent.kill tick k v a w hs pen))

theorem noRoundEnd_run (es : List DemoEvent) (h : ∀ e ∈ es, e.isRoundEnd = false)
    (st : ParseState) :
    (runEvents st es).currentRound = st.currentRound + countRoundStarts es ∧
    (runEvents st es).rounds = st.rounds := by
  induction es generalizing st with
  | nil => exact ⟨rfl, rfl⟩
  | cons e es ih =>
      have he : e.isRoundEnd = false := h e (List.mem_cons_self e es)
      have hes : ∀ x ∈ es, x.isRoundEnd = false := fun x hx => h x (List.mem_cons_of_mem e hx)
      cases e with
      | roundEnd tick w r cs ts => simp [DemoEvent.isRoundEnd] at he
      | roundStart tick tl fl obj =>
          obtain ⟨h1, h2⟩ := ih hes (step st (DemoEvent.roundStart tick tl fl obj))
          refine ⟨?_, h2⟩
          rw [show runEvents st (DemoEvent.roundStart tick tl fl obj :: es)
                = runEvents (step st (DemoEvent.roundStart tick tl fl obj)) es from rfl, h1]
          simp [step, countRoundStarts, DemoEvent.isRoundStart, List.countP_cons]
          omega
      | kill tick k v a w hs pen =>
          obtain ⟨h1, h2⟩ := ih hes (step st (DemoEvent.kill tick k v a w hs pen))
          refine ⟨?_, h2⟩
          rw [show runEvents st (DemoEvent.kill tick k v a w hs pen :: es)
                = runEvents (step st (DemoEvent.kill tick k v a w hs pen)) es from rfl, h1]
          simp [countRoundStarts, DemoEvent.isRoundStart, List.countP_cons, step]

theorem noRoundStart_run (es : List DemoEvent) (h : ∀ e ∈ es, e.isRoundStart = false)
    (st : ParseState) :
    (runEvents st es).currentRound = st.currentRound ∧
    (runEvents st es).startTick = st.startTick ∧
    ∀ ge ∈ (runEvents st es).events, ge ∈ st.events ∨ ge.roundNumber = st.currentRound := by
  induction es generalizing st with
  | nil => exact ⟨rfl, rfl, fun ge hge => Or.inl hge⟩
  | cons e es ih =>
      have he : e.isRoundStart = false := h e (List.mem_cons_self e es)
      have hes : ∀ x ∈ es, x.isRoundStart = false := fun x hx => h x (List.mem_cons_of_mem e hx)
      cases e with
      | roundStart tick tl fl obj => simp [DemoEvent.isRoundStart] at he
      | roundEnd tick w r cs ts =>
          exact ih hes (step st (DemoEvent.roundEnd tick w r cs ts))
      | kill tick k v a w hs pen =>
          obtain ⟨h1, h2, h3⟩ := ih hes (step st (DemoEvent.kill tick k v a w hs pen))
          refine ⟨h1, h2, fun ge hge => ?_⟩
          rcases h3 ge hge with hin | hrn
          · simp only [step, List.mem_append, List.mem_singleton] at hin
            rcases hin with hin | hin
            · exact Or.inl hin
            · exact Or.inr (by rw [hin])
          · exact Or.inr hrn

theorem keysOf_updateEntry (stats : List (Nat × Player)) (key : Nat) (f : Player → Player) :
    keysOf (updateEntry stats key f) = keysOf stats := by
  induction stats with
  | nil => rfl
  | cons kv rest ih =>
      by_cases h : kv.1 = key
      · simp [updateEntry, keysOf, h]
      · simp only [updateEntry, keysOf, List.map_cons, if_neg h]
        exact congrArg _ ih

theorem nodup_keysOf_updatePlayer (stats : List (Nat × Player)) (p : SourcePlayer)
    (f : Player → Player) (h : (keysOf stats).Nodup) :
    (keysOf (updatePlayer stats p f)).Nodup := by
  unfold updatePlayer
  by_cases hc : containsKey stats p.steamID64
  · simpa [hc, keysOf_updateEntry] using h
  · rw [Bool.not_eq_true] at hc
    simp only [hc, Bool.false_eq_true, if_false]
    have hnm := not_mem_keysOf stats p.steamID64 hc
    have hk : keysOf (stats ++ [(p.steamID64, f (newPlayer p))]) =
        keysOf stats ++ [p.steamID64] := by simp [keysOf]
    rw [hk]
    exact List.Nodup.append h (List.nodup_singleton _)
      (by simpa [List.disjoint_singleton] using hnm)

theorem nodup_keysOf_updateOpt (stats : List (Nat × Player)) (op : Option SourcePlayer)
    (f : Player → Player) (h : (keysOf stats).Nodup) :
    (keysOf (updateOpt stats op f)).Nodup := by
  cases op with
  | none => exact h
  | some q => exact nodup_keysOf_updatePlayer stats q f h

theorem nodup_keysOf_step (st : ParseState) (e : DemoEvent)
    (h : (keysOf st.players).Nodup) : (keysOf (step st e).players).Nodup := by
  cases e with
  | roundStart tick tl fl obj => exact h
  | roundEnd tick w r cs ts => exact h
  | kill tick k v a w hs pen =>
      exact nodup_keysOf_updateOpt _ a _ (nodup_keysOf_updateOpt _ v _
        (nodup_keysOf_updateOpt _ k _ h))

theorem nodup_keysOf_runEvents (es : List DemoEvent) (st : ParseState)
    (h : (keysOf st.players).Nodup) : (keysOf (runEvents st es).players).Nodup := by
  induction es generalizing st with
  | nil => exact h
  | cons e es ih => exact ih (step st e) (nodup_keysOf_step st e h)

theorem findPlayer_updatePlayer_stable (stats : List (Nat × Player)) (p : SourcePlayer)
    (f : Player → Player) (key : Nat) (pl : Player)
    (hf : ∀ x, (f x).name = x.name ∧ (f x).team = x.team)
    (h : findPlayer stats key = some pl) :
    ∃ pl', findPlayer (updatePlayer stats p f) key = some pl' ∧
      pl'.name = pl.name ∧ pl'.team = pl.team := by
  by_cases hk : key = p.steamID64
  · subst hk
    have hself := findPlayer_updatePlayer_self stats p f
    rw [h] at hself
    exact ⟨f pl, by simpa using hself, (hf pl).1, (hf pl).2⟩
  · exact ⟨pl, by rw [findPlayer_updatePlayer_ne stats p f key hk]; exact h, rfl, rfl⟩

theorem findPlayer_updateOpt_stable (stats : List (Nat × Player)) (op : Option SourcePlayer)
    (f : Player → Player) (key : Nat) (pl : Player)
    (hf : ∀ x, (f x).name = x.name ∧ (f x).team = x.team)
    (h : findPlayer stats key = some pl) :
    ∃ pl', findPlayer (updateOpt stats op f) key = some pl' ∧
      pl'.name = pl.name ∧ pl'.team = pl.team := by
  cases op with
  | none => exact ⟨pl, h, rfl, rfl⟩
  | some q => exact findPlayer_updatePlayer_stable stats q f key pl hf h

theorem findPlayer_step_stable (st : ParseState) (e : DemoEvent) (key : Nat) (pl : Player)
    (h : findPlayer st.players key = some pl) :
    ∃ pl', findPlayer (step st e).players key = some pl' ∧
      pl'.name = pl.name ∧ pl'.team = pl.team := by
  cases e with
  | roundStart tick tl fl obj => exact ⟨pl, h, rfl, rfl⟩
  | roundEnd tick w r cs ts => exact ⟨pl, h, rfl, rfl⟩
  | kill tick k v a w hs pen =>
      obtain ⟨pl1, h1, hn1, ht1⟩ :=
        findPlayer_updateOpt_stable st.players k
          (fun x => { x with kills := x.kills + 1 }) key pl (fun x => ⟨rfl, rfl⟩) h
      obtain ⟨pl2, h2, hn2, ht2⟩ :=
        findPlayer_updateOpt_stable _ v
          (fun x => { x with deaths := x.deaths + 1 }) key pl1 (fun x => ⟨rfl, rfl⟩) h1
      obtain ⟨pl3, h3, hn3, ht3⟩ :=
        findPlayer_updateOpt_stable _ a
          (fun x => { x with assists := x.assists + 1 }) key pl2 (fun x => ⟨rfl, rfl⟩) h2
      exact ⟨pl3, h3, by rw [hn3, hn2, hn1], by rw [ht3, ht2, ht1]⟩

theorem findPlayer_runEvents_stable (es : List DemoEvent) (st : ParseState)
    (key : Nat) (pl : Player) (h : findPlayer st.players key = some pl) :
    ∃ pl', findPlayer (runEvents st es).players key = some pl' ∧
      pl'.name = pl.name ∧ pl'.team = pl.team := by
  induction es generalizing st pl with
  | nil => exact ⟨pl, h, rfl, rfl⟩
  | cons e es ih =>
      obtain ⟨pl1, h1, hn1, ht1⟩ := findPlayer_step_stable st e key pl h
      obtain ⟨pl2, h2, hn2, ht2⟩ := ih (step st e) pl1 h1
      exact ⟨pl2, h2, by rw [hn2, hn1], by rw [ht2, ht1]⟩

theorem assistsOf_updatePlayer (stats : List (Nat × Player)) (p : SourcePlayer)
    (f : Player → Player) (hf : ∀ x, (f x).assists = x.assists) (key : Nat) :
    assistsOf (updatePlayer stats p f) key = assistsOf stats key := by
  by_cases hk : key = p.steamID64
  · subst hk
    unfold assistsOf
    rw [findPlayer_updatePlayer_self]
    rcases hfp : findPlayer stats p.steamID64 with _ | pl
    · simp [hf, newPlayer]
    · simp [hf]
  · simp [assistsOf, findPlayer_updatePlayer_ne stats p f key hk]

theorem assistsOf_updateOpt (stats : List (Nat × Player)) (op : Option SourcePlayer)
    (f : Player → Player) (hf : ∀ x, (f x).assists = x.assists) (key : Nat) :
    assistsOf (updateOpt stats op f) key = assistsOf stats key := by
  cases op with
  | none => rfl
  | some q => exact assistsOf_updatePlayer stats q f hf key

/-- A concrete killer identity used in concrete runs. -/
def srcK : SourcePlayer := { steamID64 := 1, name := "alice", team := .terrorists }

/-- A concrete victim identity used in concrete runs. -/
def srcV : SourcePlayer := { steamID64 := 2, name := "bob", team := .counterTerrorists }

/-- A concrete assister identity used in concrete runs. -/
def srcA : SourcePlayer := { steamID64 := 3, name := "carol", team := .terrorists }

/-- The same identity as `srcK` sighted later with a different name and
team, as after a mid-match side switch. -/
def srcK2 : SourcePlayer := { steamID64 := 1, name := "alice-two", team := .counterTerrorists }

/-- A concrete kill signal: killer 1, victim 2, no assister. -/
def killKV : DemoEvent := DemoEvent.kill 5 (some srcK) (some srcV) none "ak47" true 2

/-- A concrete later kill signal whose killer carries identity 1 with a
changed name and team. -/
def killK2V : DemoEvent := DemoEvent.kill 6 (some srcK2) (some srcV) none "m4a1" false 0

/-- Claim C1: for every event sequence holding exactly one round-start
signal followed later by exactly one round-end signal (every other event
being a kill), the resulting Rounds sequence has exactly one entry, its
round number is 1, and its duration equals the end tick minus the start
tick integer-divided by the fixed constant 128, truncated toward zero —
for every header, so the arithmetic is independent of the header's rate. -/
theorem single_round_output (demoID : String) (hdr : Header)
    (pre mid post : List DemoEvent) (s tl fl : Int) (obj : String)
    (t : Int) (w r : String) (cs ts : Int)
    (hpre : ∀ e ∈ pre, e.isKill = true)
    (hmid : ∀ e ∈ mid, e.isKill = true)
    (hpost : ∀ e ∈ post, e.isKill = true) :
    (parseDemo demoID
        { events := pre ++ [DemoEvent.roundStart s tl fl obj] ++ mid ++
            [DemoEvent.roundEnd t w r cs ts] ++ post
          header := hdr
          fault := none }).map ParsedData.rounds =
      Except.ok [{ roundNumber := 1, winnerSide := w, winReason := r, ctScore := cs,
                   tScore := ts, durationSeconds := Int.tdiv (t - s) 128,
                   roundData := [] }] := by
  obtain ⟨hr1, hc1, hs1⟩ := killOnly_run pre hpre initState
  set st1 := runEvents initState pre with hst1
  set st1' := step st1 (DemoEvent.roundStart s tl fl obj) with hst1'
  obtain ⟨hr2, hc2, hs2⟩ := killOnly_run mid hmid st1'
  set st2 := runEvents st1' mid with hst2
  set st2' := step st2 (DemoEvent.roundEnd t w r cs ts) with hst2'
  obtain ⟨hr3, hc3, hs3⟩ := killOnly_run post hpost st2'
  have hsplit : runEvents initState
      (pre ++ [DemoEvent.roundStart s tl fl obj] ++ mid ++
        [DemoEvent.roundEnd t w r cs ts] ++ post) = runEvents st2' post := by
    simp only [runEvents_append]
    rw [hst2', hst2, hst1', hst1]
    rfl
  simp only [parseDemo, Except.map, hsplit]
  rw [hr3]
  have h2r : st2'.rounds = st2.rounds ++
      [{ roundNumber := st2.currentRound, winnerSide := w, winReason := r, ctScore := cs,
         tScore := ts, durationSeconds := Int.tdiv (t - st2.startTick) 128,
         roundData := [] }] := rfl
  have h1r : st1'.rounds = st1.rounds := rfl
  have h1c : st1'.currentRound = st1.currentRound + 1 := rfl
  have h1s : st1'.startTick = s := rfl
  rw [h2r, hr2, h1r, hr1, hc2, h1c, hc1, hs2, h1s]
  simp [initState]

/-- Witness for `single_round_output`: the spec's worked example — one
round start at tick 0, one kill, one round end at tick 1280 — yields the
single round record with round number 1 and duration 10. -/
theorem single_round_output_witness :
    (parseDemo "demo1"
        { events := [] ++ [DemoEvent.roundStart 0 0 0 ""] ++ [killKV] ++
            [DemoEvent.roundEnd 1280 "CT" "elimination" 1 0] ++ []
          header := { mapName := "de_dust2", playbackSeconds := 96, frameRate := 64 }
          fault := none }).map ParsedData.rounds =
      Except.ok [{ roundNumber := 1, winnerSide := "CT", winReason := "elimination",
                   ctScore := 1, tScore := 0, durationSeconds := 10,
                   roundData := [] }] :=
  single_round_output "demo1"
    { mapName := "de_dust2", playbackSeconds := 96, frameRate := 64 }
    [] [killKV] [] 0 0 0 "" 1280 "CT" "elimination" 1 0
    (by decide) (by decide) (by decide)

/-- Claim C3: over any stream with no round-end signal yet, the running
round counter after processing equals the number of round-start signals
seen (so it is incremented exactly by round-start signals, independent of
any payload field they carry), and the Rounds sequence is still empty. -/
theorem round_counter_counts_starts (es : List DemoEvent)
    (h : ∀ e ∈ es, e.isRoundEnd = false) :
    (runEvents initState es).currentRound = countRoundStarts es ∧
    (runEvents initState es).rounds = [] := by
  obtain ⟨h1, h2⟩ := noRoundEnd_run es h initState
  exact ⟨by simpa [initState] using h1, by simpa [initState] using h2⟩

/-- Witness for `round_counter_counts_starts`: two round starts and a kill,
no round end — counter 2, no round records. -/
theorem round_counter_counts_starts_witness :
    (runEvents initState
        [DemoEvent.roundStart 10 0 0 "", killKV, DemoEvent.roundStart 20 0 0 ""]).currentRound =
      countRoundStarts
        [DemoEvent.roundStart 10 0 0 "", killKV, DemoEvent.roundStart 20 0 0 ""] ∧
    (runEvents initState
        [DemoEvent.roundStart 10 0 0 "", killKV, DemoEvent.roundStart 20 0 0 ""]).rounds = [] :=
  round_counter_counts_starts
    [DemoEvent.roundStart 10 0 0 "", killKV, DemoEvent.roundStart 20 0 0 ""] (by decide)

/-- Claim C6: before any round-start signal, every appended event record
carries round number 0; and a round-end with no preceding round-start
still appends a round record (round number 0) whose duration is computed
from the default start tick 0. -/
theorem no_roundstart_defaults (es : List DemoEvent) (t : Int) (w r : String)
    (cs ts : Int) (h : ∀ e ∈ es, e.isRoundStart = false) :
    (∀ ge ∈ (runEvents initState es).events, ge.roundNumber = 0) ∧
    (runEvents initState (es ++ [DemoEvent.roundEnd t w r cs ts])).rounds =
      (runEvents initState es).rounds ++
        [{ roundNumber := 0, winnerSide := w, winReason := r, ctScore := cs, tScore := ts,
           durationSeconds := Int.tdiv (t - 0) 128, roundData := [] }] := by
  obtain ⟨h1, h2, h3⟩ := noRoundStart_run es h initState
  constructor
  · intro ge hge
    rcases h3 ge hge with hin | hrn
    · simp [initState] at hin
    · simpa [initState] using hrn
  · rw [runEvents_append]
    have hR : (step (runEvents initState es) (DemoEvent.roundEnd t w r cs ts)).rounds =
        (runEvents initState es).rounds ++
          [{ roundNumber := (runEvents initState es).currentRound, winnerSide := w,
             winReason := r, ctScore := cs, tScore := ts,
             durationSeconds := Int.tdiv (t - (runEvents initState es).startTick) 128,
             roundData := [] }] := rfl
    show (step (runEvents initState es) (DemoEvent.roundEnd t w r cs ts)).rounds = _
    rw [hR, h1, h2]
    simp [initState]

/-- Witness for `no_roundstart_defaults`: a kill and then a round end with
no round start ever seen — the round record is appended with round number
0 and duration measured from tick 0. -/
theorem no_roundstart_defaults_witness :
    (runEvents initState ([killKV] ++ [DemoEvent.roundEnd 999999 "T" "bomb" 0 1])).rounds =
      (runEvents initState [killKV]).rounds ++
        [{ roundNumber := 0, winnerSide := "T", winReason := "bomb", ctScore := 0, tScore := 1,
           durationSeconds := Int.tdiv (999999 - 0) 128, roundData := [] }] :=
  (no_roundstart_defaults [killKV] 999999 "T" "bomb" 0 1 (by decide)).2

/-- Claim C10: a round-end signal leaves the running round counter and the
stored round start tick unchanged, so two consecutive round-end signals
with no intervening round-start both append round records carrying the
same round number, with both durations measured from the same start
tick. -/
theorem roundend_preserves_counter_and_start (st : ParseState) (es : List DemoEvent)
    (t1 t2 : Int) (w1 r1 w2 r2 : String) (cs1 ts1 cs2 ts2 : Int) :
    ((step st (DemoEvent.roundEnd t1 w1 r1 cs1 ts1)).currentRound = st.currentRound ∧
     (step st (DemoEvent.roundEnd t1 w1 r1 cs1 ts1)).startTick = st.startTick) ∧
    (runEvents initState (es ++ [DemoEvent.roundEnd t1 w1 r1 cs1 ts1,
        DemoEvent.roundEnd t2 w2 r2 cs2 ts2])).rounds =
      (runEvents initState es).rounds ++
        [{ roundNumber := (runEvents initState es).currentRound, winnerSide := w1,
           winReason := r1, ctScore := cs1, tScore := ts1,
           durationSeconds := Int.tdiv (t1 - (runEvents initState es).startTick) 128,
           roundData := [] },
         { roundNumber := (runEvents initState es).currentRound, winnerSide := w2,
           winReason := r2, ctScore := cs2, tScore := ts2,
           durationSeconds := Int.tdiv (t2 - (runEvents initState es).startTick) 128,
           roundData := [] }] := by
  refine ⟨⟨rfl, rfl⟩, ?_⟩
  rw [runEvents_append]
  show (step (step (runEvents initState es) (DemoEvent.roundEnd t1 w1 r1 cs1 ts1))
      (DemoEvent.roundEnd t2 w2 r2 cs2 ts2)).rounds = _
  simp [step]

/-- A concrete kill signal carrying an assister: killer 1, victim 2,
assister 3. -/
def killWithAssister : DemoEvent :=
  DemoEvent.kill 5 (some srcK) (some srcV) (some srcA) "ak47" true 2

/-- Claim C2 counterexample: processing the single kill signal with
present killer identity 1, present victim identity 2 (distinct) and
assister identity 3 does not leave every accumulator other than the
killer's and the victim's unchanged — before processing no accumulator for
identity 3 exists, and afterwards identity 3 holds an accumulator with
assist count 1. -/
theorem kill_with_assister_changes_third_accumulator :
    findPlayer initState.players 3 = none ∧
    (findPlayer (step initState killWithAssister).players 3).map Player.assists = some 1 :=
  ⟨rfl, rfl⟩

/-- Claim C2 (amended to kill signals whose assister is absent): such a
signal with present killer K and present victim V of distinct identities
increases K's kill count by exactly 1 and V's death count by exactly 1,
leaves K's deaths/assists and V's kills/assists unchanged, and leaves
every accumulator of any other identity untouched. -/
theorem kill_updates_exactly_killer_and_victim (st : ParseState) (tick : Int)
    (K V : SourcePlayer) (w : String) (hs : Bool) (pen : Int)
    (hne : K.steamID64 ≠ V.steamID64) :
    killsOf (step st (DemoEvent.kill tick (some K) (some V) none w hs pen)).players
        K.steamID64 = killsOf st.players K.steamID64 + 1 ∧
    deathsOf (step st (DemoEvent.kill tick (some K) (some V) none w hs pen)).players
        V.steamID64 = deathsOf st.players V.steamID64 + 1 ∧
    deathsOf (step st (DemoEvent.kill tick (some K) (some V) none w hs pen)).players
        K.steamID64 = deathsOf st.players K.steamID64 ∧
    assistsOf (step st (DemoEvent.kill tick (some K) (some V) none w hs pen)).players
        K.steamID64 = assistsOf st.players K.steamID64 ∧
    killsOf (step st (DemoEvent.kill tick (some K) (some V) none w hs pen)).players
        V.steamID64 = killsOf st.players V.steamID64 ∧
    assistsOf (step st (DemoEvent.kill tick (some K) (some V) none w hs pen)).players
        V.steamID64 = assistsOf st.players V.steamID64 ∧
    ∀ id, id ≠ K.steamID64 → id ≠ V.steamID64 →
      findPlayer (step st (DemoEvent.kill tick (some K) (some V) none w hs pen)).players id =
        findPlayer st.players id := by
  have hpl : (step st (DemoEvent.kill tick (some K) (some V) none w hs pen)).players =
      updatePlayer (updatePlayer st.players K (fun x => { x with kills := x.kills + 1 }))
        V (fun x => { x with deaths := x.deaths + 1 }) := rfl
  have hfk : findPlayer (updatePlayer (updatePlayer st.players K
        (fun x => { x with kills := x.kills + 1 }))
        V (fun x => { x with deaths := x.deaths + 1 })) K.steamID64 =
      some ((fun x => { x with kills := x.kills + 1 })
        ((findPlayer st.players K.steamID64).getD (newPlayer K))) := by
    rw [findPlayer_updatePlayer_ne _ _ _ _ hne, findPlayer_updatePlayer_self]
  have hfv : findPlayer (updatePlayer (updatePlayer st.players K
        (fun x => { x with kills := x.kills + 1 }))
        V (fun x => { x with deaths := x.deaths + 1 })) V.steamID64 =
      some ((fun x => { x with deaths := x.deaths + 1 })
        ((findPlayer st.players V.steamID64).getD (newPlayer V))) := by
    rw [findPlayer_updatePlayer_self,
      findPlayer_updatePlayer_ne _ _ _ _ (Ne.symm hne)]
  refine ⟨?_, ?_, ?_, ?_, ?_, ?_, ?_⟩
  · rw [killsOf, hpl, hfk]
    rcases hold : findPlayer st.players K.steamID64 with _ | pl <;>
      simp [killsOf, hold, newPlayer]
  · rw [deathsOf, hpl, hfv]
    rcases hold : findPlayer st.players V.steamID64 with _ | pl <;>
      simp [deathsOf, hold, newPlayer]
  · rw [deathsOf, hpl, hfk]
    rcases hold : findPlayer st.players K.steamID64 with _ | pl <;>
      simp [deathsOf, hold, newPlayer]
  · rw [assistsOf, hpl, hfk]
    rcases hold : findPlayer st.players K.steamID64 with _ | pl <;>
      simp [assistsOf, hold, newPlayer]
  · rw [killsOf, hpl, hfv]
    rcases hold : findPlayer st.players V.steamID64 with _ | pl <;>
      simp [killsOf, hold, newPlayer]
  · rw [assistsOf, hpl, hfv]
    rcases hold : findPlayer st.players V.steamID64 with _ | pl <;>
      simp [assistsOf, hold, newPlayer]
  · intro id hK hV
    rw [hpl, findPlayer_updatePlayer_ne _ _ _ _ hV, findPlayer_updatePlayer_ne _ _ _ _ hK]

/-- Witness for `kill_updates_exactly_killer_and_victim`: the concrete kill
of victim 2 by killer 1 from the empty state — killer 1's kill count goes
from 0 to 1, victim 2's death count goes from 0 to 1, and the (absent)
accumulator of identity 7 is untouched. -/
theorem kill_updates_exactly_killer_and_victim_witness :
    killsOf (step initState killKV).players 1 = killsOf initState.players 1 + 1 ∧
    deathsOf (step initState killKV).players 2 = deathsOf initState.players 2 + 1 ∧
    findPlayer (step initState killKV).players 7 = findPlayer initState.players 7 :=
  ⟨(kill_updates_exactly_killer_and_victim initState 5 srcK srcV "ak47" true 2 (by decide)).1,
   (kill_updates_exactly_killer_and_victim initState 5 srcK srcV "ak47" true 2 (by decide)).2.1,
   (kill_updates_exactly_killer_and_victim initState 5 srcK srcV "ak47" true 2
      (by decide)).2.2.2.2.2.2 7 (by decide) (by decide)⟩

/-- Claim C4: after any stream, each identity holds at most one accumulator
(the key list is duplicate-free — and since every state during processing
is itself the result of some stream, this holds at every point), and the
name and team label fixed at first sighting survive any further events,
even ones sighting the same identity with a changed name or team. -/
theorem accumulator_unique_and_first_sighting_fixed (es extra : List DemoEvent)
    (id : Nat) (pl : Player)
    (h : findPlayer (runEvents initState es).players id = some pl) :
    (keysOf (runEvents initState es).players).Nodup ∧
    ∃ pl', findPlayer (runEvents initState (es ++ extra)).players id = some pl' ∧
      pl'.name = pl.name ∧ pl'.team = pl.team := by
  refine ⟨nodup_keysOf_runEvents es initState (by simp [initState, keysOf]), ?_⟩
  rw [runEvents_append]
  exact findPlayer_runEvents_stable extra _ id pl h

/-- Witness for `accumulator_unique_and_first_sighting_fixed`: after the
kill by identity 1 named `alice` on team T, a later kill sighting identity
1 with name `alice-two` on the CT side leaves the stored name `alice` and
team `T` in place, and the accumulator keys stay duplicate-free. -/
theorem accumulator_unique_and_first_sighting_fixed_witness :
    (keysOf (runEvents initState [killKV]).players).Nodup ∧
    ∃ pl', findPlayer (runEvents initState ([killKV] ++ [killK2V])).players 1 = some pl' ∧
      pl'.name = "alice" ∧ pl'.team = "T" :=
  accumulator_unique_and_first_sighting_fixed [killKV] [killK2V] 1
    { steamID := "1", name := "alice", team := "T", kills := 1, deaths := 0, assists := 0,
      adr := 0, hsp := 0, kast := 0, rating := 0, stats := [] } (by decide)

/-- Claim C7: a kill signal with an absent assister increments no
identity's assist count, appends exactly one event record whose payload has
no assister key, and an absent killer or victim renders in the payload as
the sentinel string `unknown` (names are total strings, never null). -/
theorem kill_absent_assister_and_name_sentinels (st : ParseState) (tick : Int)
    (k v : Option SourcePlayer) (w : String) (hs : Bool) (pen : Int) :
    (∀ id, assistsOf (step st (DemoEvent.kill tick k v none w hs pen)).players id =
        assistsOf st.players id) ∧
    (step st (DemoEvent.kill tick k v none w hs pen)).events =
      st.events ++ [{ eventType := "kill", tick := tick, roundNumber := st.currentRound,
                      eventData := killEventData k v w hs pen }] ∧
    (∀ val : EVal, ("assister", val) ∉ killEventData k v w hs pen) ∧
    findVal (killEventData none v w hs pen) "killer" = some (EVal.str "unknown") ∧
    findVal (killEventData k none w hs pen) "victim" = some (EVal.str "unknown") := by
  refine ⟨?_, rfl, ?_, rfl, rfl⟩
  · intro id
    show assistsOf (updateOpt (updateOpt st.players k
        (fun x => { x with kills := x.kills + 1 })) v
        (fun x => { x with deaths := x.deaths + 1 })) id = assistsOf st.players id
    rw [assistsOf_updateOpt _ v (fun x => { x with deaths := x.deaths + 1 })
        (fun x => rfl) id,
      assistsOf_updateOpt _ k (fun x => { x with kills := x.kills + 1 })
        (fun x => rfl) id]
  · intro val
    simp [killEventData]

/-- Claim C5: whenever the replay event source raises a decode fault
(also mid-stream, after events were already handled), `parseDemo` returns
the error and no `ParsedData` at all — everything accumulated is
discarded — and the handler makes no webhook delivery attempt, answering
500 with the error text. -/
theorem decode_fault_aborts (input : HandlerInput) (req : ParseRequest)
    (stream : DemoStream) (msg : String)
    (hm : input.method = "POST")
    (hb : input.decodedBody = Except.ok req)
    (hd : input.download req.filePath = Except.ok stream)
    (hf : stream.fault = some msg) :
    parseDemo req.demoID stream = Except.error msg ∧
    (parseHandler input).delivered = [] ∧
    (parseHandler input).response = { statusCode := 500, body := .text msg } := by
  have hp : parseDemo req.demoID stream = Except.error msg := by
    simp [parseDemo, hf]
  refine ⟨hp, ?_, ?_⟩ <;> simp [parseHandler, hm, hb, hd, hp]

/-- A concrete stream whose source raises a decode fault after one event
was already delivered mid-stream. -/
def faultStream : DemoStream :=
  { events := [DemoEvent.roundStart 0 0 0 ""]
    header := { mapName := "de_dust2", playbackSeconds := 0, frameRate := 0 }
    fault := some "invalid demo" }

/-- A concrete request whose download succeeds with `faultStream` and whose
webhook would accept anything. -/
def faultInput : HandlerInput :=
  { method := "POST"
    decodedBody := Except.ok { demoID := "d1", filePath := "f1" }
    download := fun _ => Except.ok faultStream
    webhook := fun _ => Except.ok () }

/-- Witness for `decode_fault_aborts` at the concrete faulting stream. -/
theorem decode_fault_aborts_witness :
    parseDemo "d1" faultStream = Except.error "invalid demo" ∧
    (parseHandler faultInput).delivered = [] ∧
    (parseHandler faultInput).response = { statusCode := 500, body := .text "invalid demo" } :=
  decode_fault_aborts faultInput { demoID := "d1", filePath := "f1" } faultStream
    "invalid demo" rfl rfl rfl rfl

/-- The frame-rate value 63.75 (an exactly representable float) as the
rational 255/4. -/
def frame6375 : Rat := ⟨255, 4, by decide, by decide⟩

theorem frame6375_eq : frame6375 = (255 : Rat) / 4 := by
  unfold frame6375
  rw [Rat.mk'_eq_divInt, Rat.divInt_eq_div]
  norm_num

/-- Claim C8 counterexample: with header frame rate 63.75, the assembled
metadata's tick rate is 63 — the frame-rate value truncated toward zero,
as Go's `int(...)` conversion does — whereas the frame-rate value rounded
to the nearest integer is 64. -/
theorem tickrate_truncated_not_rounded :
    (parseDemo "d"
        { events := []
          header := { mapName := "de_dust2", playbackSeconds := 10, frameRate := frame6375 }
          fault := none }).map (fun pd => pd.metadata.tickRate) = Except.ok 63 ∧
    round frame6375 = 64 := by
  constructor
  · have h63 : goTruncToInt frame6375 = 63 := by decide
    simp [parseDemo, Except.map, h63]
  · rw [frame6375_eq]
    norm_num [round_eq]

/-- Claim C8 (amended): on clean stream completion the assembled metadata
is the header's map name, the playback time in seconds truncated toward
zero, and the frame-rate value truncated toward zero (not rounded to
nearest). -/
theorem metadata_from_header (demoID : String) (es : List DemoEvent) (hdr : Header) :
    (parseDemo demoID { events := es, header := hdr, fault := none }).map
        ParsedData.metadata =
      Except.ok { mapName := hdr.mapName
                  duration := goTruncToInt hdr.playbackSeconds
                  tickRate := goTruncToInt hdr.frameRate } := by
  simp [parseDemo, Except.map]

/-- Claim C9: the `/parse` endpoint answers 405 `Method not allowed` to a
non-POST method, 400 with the decode error text to a POST whose JSON body
is malformed, 500 with the plain-text error message for any internal
failure (download, decode, webhook delivery), and 200 with the JSON body
having single field `status` = `success` when everything succeeds. -/
theorem parse_endpoint_contract (input : HandlerInput) :
    (input.method ≠ "POST" →
      (parseHandler input).response =
        { statusCode := 405, body := .text "Method not allowed" }) ∧
    (∀ msg, input.method = "POST" → input.decodedBody = Except.error msg →
      (parseHandler input).response = { statusCode := 400, body := .text msg }) ∧
    (∀ req msg, input.method = "POST" → input.decodedBody = Except.ok req →
      input.download req.filePath = Except.error msg →
      (parseHandler input).response = { statusCode := 500, body := .text msg }) ∧
    (∀ req stream msg, input.method = "POST" → input.decodedBody = Except.ok req →
      input.download req.filePath = Except.ok stream →
      parseDemo req.demoID stream = Except.error msg →
      (parseHandler input).response = { statusCode := 500, body := .text msg }) ∧
    (∀ req stream parsed msg, input.method = "POST" →
      input.decodedBody = Except.ok req →
      input.download req.filePath = Except.ok stream →
      parseDemo req.demoID stream = Except.ok parsed →
      input.webhook parsed = Except.error msg →
      (parseHandler input).response = { statusCode := 500, body := .text msg }) ∧
    (∀ req stream parsed, input.method = "POST" →
      input.decodedBody = Except.ok req →
      input.download req.filePath = Except.ok stream →
      parseDemo req.demoID stream = Except.ok parsed →
      input.webhook parsed = Except.ok () →
      (parseHandler input).response = { statusCode := 200, body := .jsonStatus "success" }) := by
  refine ⟨?_, ?_, ?_, ?_, ?_, ?_⟩
  · intro hm
    simp [parseHandler, hm]
  · intro msg hm hb
    simp [parseHandler, hm, hb]
  · intro req msg hm hb hd
    simp [parseHandler, hm, hb, hd]
  · intro req stream msg hm hb hd hp
    simp [parseHandler, hm, hb, hd, hp]
  · intro req stream parsed msg hm hb hd hp hw
    simp [parseHandler, hm, hb, hd, hp, hw]
  · intro req stream parsed hm hb hd hp hw
    simp [parseHandler, hm, hb, hd, hp, hw]

/-- A clean stream with no events and a plain header, for the success and
delivery-failure cases. -/
def cleanStream : DemoStream :=
  { events := []
    header := { mapName := "de_mirage", playbackSeconds := 0, frameRate := 0 }
    fault := none }

/-- The Result assembled from `cleanStream` for demo id `d1`. -/
def cleanParsed : ParsedData :=
  { demoID := "d1", players := [], rounds := [], events := []
    metadata := { mapName := "de_mirage", duration := 0, tickRate := 0 } }

/-- A request with a non-POST method. -/
def inputNonPost : HandlerInput :=
  { method := "GET", decodedBody := Except.error "empty body"
    download := fun _ => Except.ok cleanStream, webhook := fun _ => Except.ok () }

/-- A POST whose JSON body fails to decode. -/
def inputBadJson : HandlerInput :=
  { method := "POST", decodedBody := Except.error "bad json"
    download := fun _ => Except.ok cleanStream, webhook := fun _ => Except.ok () }

/-- A POST whose storage download fails. -/
def inputDlFail : HandlerInput :=
  { method := "POST", decodedBody := Except.ok { demoID := "d1", filePath := "f1" }
    download := fun _ => Except.error "download failed", webhook := fun _ => Except.ok () }

/-- A POST whose webhook delivery fails after a clean parse. -/
def inputHookFail : HandlerInput :=
  { method := "POST", decodedBody := Except.ok { demoID := "d1", filePath := "f1" }
    download := fun _ => Except.ok cleanStream, webhook := fun _ => Except.error "hook down" }

/-- A POST for which every collaborator succeeds. -/
def inputOk : HandlerInput :=
  { method := "POST", decodedBody := Except.ok { demoID := "d1", filePath := "f1" }
    download := fun _ => Except.ok cleanStream, webhook := fun _ => Except.ok () }

/-- Witness for `parse_endpoint_contract`: each branch of the contract at
a concrete request exercising it. -/
theorem parse_endpoint_contract_witness :
    (parseHandler inputNonPost).response =
      { statusCode := 405, body := .text "Method not allowed" } ∧
    (parseHandler inputBadJson).response = { statusCode := 400, body := .text "bad json" } ∧
    (parseHandler inputDlFail).response =
      { statusCode := 500, body := .text "download failed" } ∧
    (parseHandler faultInput).response = { statusCode := 500, body := .text "invalid demo" } ∧
    (parseHandler inputHookFail).response = { statusCode := 500, body := .text "hook down" } ∧
    (parseHandler inputOk).response = { statusCode := 200, body := .jsonStatus "success" } :=
  ⟨(parse_endpoint_contract inputNonPost).1 (by decide),
   (parse_endpoint_contract inputBadJson).2.1 "bad json" rfl rfl,
   (parse_endpoint_contract inputDlFail).2.2.1 { demoID := "d1", filePath := "f1" }
     "download failed" rfl rfl rfl,
   (parse_endpoint_contract faultInput).2.2.2.1 { demoID := "d1", filePath := "f1" }
     faultStream "invalid demo" rfl rfl rfl (by simp [parseDemo, faultStream]),
   (parse_endpoint_contract inputHookFail).2.2.2.2.1 { demoID := "d1", filePath := "f1" }
     cleanStream cleanParsed "hook down" rfl rfl rfl rfl rfl,
   (parse_endpoint_contract inputOk).2.2.2.2.2 { demoID := "d1", filePath := "f1" }
     cleanStream cleanParsed rfl rfl rfl rfl rfl⟩

/-- Witness for `roundend_preserves_counter_and_start`: one round start at
tick 0 then two round ends at ticks 100 and 300 — both records carry round
number 1 and durations measured from start tick 0. -/
theorem roundend_preserves_counter_and_start_witness :
    ((step initState (DemoEvent.roundEnd 100 "CT" "elimination" 1 0)).currentRound =
        initState.currentRound ∧
     (step initState (DemoEvent.roundEnd 100 "CT" "elimination" 1 0)).startTick =
        initState.startTick) ∧
    (runEvents initState ([DemoEvent.roundStart 0 0 0 ""] ++
        [DemoEvent.roundEnd 100 "CT" "elimination" 1 0,
         DemoEvent.roundEnd 300 "T" "bomb" 1 1])).rounds =
      (runEvents initState [DemoEvent.roundStart 0 0 0 ""]).rounds ++
        [{ roundNumber := (runEvents initState [DemoEvent.roundStart 0 0 0 ""]).currentRound,
           winnerSide := "CT", winReason := "elimination", ctScore := 1, tScore := 0,
           durationSeconds := Int.tdiv
             (100 - (runEvents initState [DemoEvent.roundStart 0 0 0 ""]).startTick) 128,
           roundData := [] },
         { roundNumber := (runEvents initState [DemoEvent.roundStart 0 0 0 ""]).currentRound,
           winnerSide := "T", winReason := "bomb", ctScore := 1, tScore := 1,
           durationSeconds := Int.tdiv
             (300 - (runEvents initState [DemoEvent.roundStart 0 0 0 ""]).startTick) 128,
           roundData := [] }] :=
  roundend_preserves_counter_and_start initState [DemoEvent.roundStart 0 0 0 ""]
    100 300 "CT" "elimination" "T" "bomb" 1 0 1 1

/-- Witness for `kill_absent_assister_and_name_sentinels` at the concrete
assisterless kill of victim 2 by killer 1. -/
theorem kill_absent_assister_and_name_sentinels_witness :
    assistsOf (step initState killKV).players 3 = assistsOf initState.players 3 ∧
    findVal (killEventData none (some srcV) "ak47" true 2) "killer" =
      some (EVal.str "unknown") ∧
    ("assister", EVal.str "x") ∉ killEventData (some srcK) (some srcV) "ak47" true 2 :=
  ⟨(kill_absent_assister_and_name_sentinels initState 5 (some srcK) (some srcV)
      "ak47" true 2).1 3,
   (kill_absent_assister_and_name_sentinels initState 5 (some srcK) (some srcV)
      "ak47" true 2).2.2.2.1,
   (kill_absent_assister_and_name_sentinels initState 5 (some srcK) (some srcV)
      "ak47" true 2).2.2.1 (EVal.str "x")⟩

/-- Witness for `metadata_from_header` at a concrete header with the
fractional frame rate 63.75. -/
theorem metadata_from_header_witness :
    (parseDemo "d1"
        { events := []
          header := { mapName := "de_inferno", playbackSeconds := 10, frameRate := frame6375 }
          fault := none }).map ParsedData.metadata =
      Except.ok { mapName := "de_inferno", duration := goTruncToInt 10,
                  tickRate := goTruncToInt frame6375 } :=
  metadata_from_header "d1" []
    { mapName := "de_inferno", playbackSeconds := 10, frameRate := frame6375 }

end DemoParser
